import Mathlib

/-!
Verification of the OFAC SDN Global Risk Monitor aggregation core.

This file gives a shallow embedding, in Lean 4, of the pure data logic of the
repository (src/data_processor.py, src/pivot_risk_visuals.py, src/app.py,
src/config.py) and proves or refutes the frozen specification claims about it.

Modelling conventions:
* A pandas `DataFrame` is modelled as a structure holding the list of column
  names (`cols`, modelling `df.columns`) together with the list of rows.  Rows
  are records whose fields are the columns the claims are about; a field of a
  row is only meaningful when the corresponding column name is in `cols`.
* Machine floats of the source are modelled as exact rationals (`ℚ`).
* `groupby` is modelled by deduplicating the list of keys (first-occurrence
  order) and filtering the rows per key.  pandas sorts group keys; every
  property proved below is a per-row property, so key order is immaterial.
* Fallible pandas/numpy operations (`raise ValueError`, `KeyError`) are
  modelled with `Except String`.
-/

/-- `config.py` `RISK_SCORE_MAP` (lines 54-61): risk tier name → numeric score. -/
def RISK_SCORE_MAP : List (String × ℕ) :=
  [("Low", 1), ("Medium Low", 2), ("Medium", 3),
   ("Medium High", 4), ("High", 5), ("Critical", 6)]

/-- `config.py` `RISK_COLOR_MAP` (lines 45-52): risk tier name → display color. -/
def RISK_COLOR_MAP : List (String × String) :=
  [("Low", "#2E4A1E"), ("Medium Low", "#9ACD32"), ("Medium", "#FFFF00"),
   ("Medium High", "#FFA500"), ("High", "#FF0000"), ("Critical", "#800080")]

/-- `pd.Series.map(RISK_SCORE_MAP)` on a single label; `0` models NaN, which
never arises for labels produced by `apply_risk_rating`. -/
def riskScoreOf (label : String) : ℕ :=
  (RISK_SCORE_MAP.lookup label).getD 0

/-- `data_processor.apply_risk_rating` (lines 91-103): classify a numeric
count into one of six ordinal risk tiers by fixed thresholds. -/
def apply_risk_rating (value : ℚ) : String :=
  if value ≤ 200 then "Low"
  else if value ≤ 400 then "Medium Low"
  else if value ≤ 600 then "Medium"
  else if value ≤ 800 then "Medium High"
  else if value ≤ 1000 then "High"
  else "Critical"

lemma riskScoreOf_apply_risk_rating_mono (c c' : ℚ) (h : c ≤ c') :
    riskScoreOf (apply_risk_rating c) ≤ riskScoreOf (apply_risk_rating c') := by
  unfold apply_risk_rating
  split_ifs <;> first | decide | (exfalso; linarith)

lemma apply_risk_rating_eq_iff (c : ℚ) :
    (apply_risk_rating c = "Low" ↔ c ≤ 200) ∧
    (apply_risk_rating c = "Medium Low" ↔ 200 < c ∧ c ≤ 400) ∧
    (apply_risk_rating c = "Medium" ↔ 400 < c ∧ c ≤ 600) ∧
    (apply_risk_rating c = "Medium High" ↔ 600 < c ∧ c ≤ 800) ∧
    (apply_risk_rating c = "High" ↔ 800 < c ∧ c ≤ 1000) ∧
    (apply_risk_rating c = "Critical" ↔ 1000 < c) := by
  unfold apply_risk_rating
  split_ifs with h1 h2 h3 h4 h5 <;>
    refine ⟨?_, ?_, ?_, ?_, ?_, ?_⟩ <;>
    constructor <;>
    intro hx <;>
    first
      | rfl
      | exact absurd hx (by decide)
      | (exact absurd hx.2 (by linarith))
      | (constructor <;> linarith)
      | linarith
      | (exfalso; linarith)

/-- C1: `apply_risk_rating` is non-decreasing in its argument (measured through
the configured tier scores) and realises exactly the documented six contiguous
threshold intervals 200/400/600/800/1000. -/
theorem apply_risk_rating_monotone_and_partitions (c c' : ℚ) (h : c ≤ c') :
    riskScoreOf (apply_risk_rating c) ≤ riskScoreOf (apply_risk_rating c') ∧
    ((apply_risk_rating c = "Low" ↔ c ≤ 200) ∧
     (apply_risk_rating c = "Medium Low" ↔ 200 < c ∧ c ≤ 400) ∧
     (apply_risk_rating c = "Medium" ↔ 400 < c ∧ c ≤ 600) ∧
     (apply_risk_rating c = "Medium High" ↔ 600 < c ∧ c ≤ 800) ∧
     (apply_risk_rating c = "High" ↔ 800 < c ∧ c ≤ 1000) ∧
     (apply_risk_rating c = "Critical" ↔ 1000 < c)) :=
  ⟨riskScoreOf_apply_risk_rating_mono c c' h, apply_risk_rating_eq_iff c⟩

/-- Witness for C1 at the concrete pair of inputs 100 ≤ 300. -/
theorem apply_risk_rating_monotone_and_partitions_witness :
    (100 : ℚ) ≤ 300 ∧
    (riskScoreOf (apply_risk_rating 100) ≤ riskScoreOf (apply_risk_rating 300) ∧
     ((apply_risk_rating 100 = "Low" ↔ (100 : ℚ) ≤ 200) ∧
      (apply_risk_rating 100 = "Medium Low" ↔ (200 : ℚ) < 100 ∧ (100 : ℚ) ≤ 400) ∧
      (apply_risk_rating 100 = "Medium" ↔ (400 : ℚ) < 100 ∧ (100 : ℚ) ≤ 600) ∧
      (apply_risk_rating 100 = "Medium High" ↔ (600 : ℚ) < 100 ∧ (100 : ℚ) ≤ 800) ∧
      (apply_risk_rating 100 = "High" ↔ (800 : ℚ) < 100 ∧ (100 : ℚ) ≤ 1000) ∧
      (apply_risk_rating 100 = "Critical" ↔ (1000 : ℚ) < 100))) :=
  ⟨by norm_num, apply_risk_rating_monotone_and_partitions 100 300 (by norm_num)⟩

/-- Python `str.lower` modelled over the character list. -/
def pyLower (s : String) : String :=
  String.mk (s.data.map Char.toLower)

/-- Python `str.strip` modelled over the character list: drop whitespace from
both ends. -/
def pyStrip (s : String) : String :=
  String.mk (((s.data.dropWhile Char.isWhitespace).reverse.dropWhile
    Char.isWhitespace).reverse)

/-- Row of the master OFAC dataframe.  Fields model the columns used by the
aggregations: `ent_num`, `SDN_Type` (`none` models NaN), `Country`,
`Sanctions Program`, and an optional upstream `Risk_Score`.  A field is only
meaningful when the corresponding column name occurs in the frame's `cols`. -/
structure MasterRow where
  entNum : ℕ
  sdnType : Option String
  country : String
  program : String
  riskScore : ℚ
deriving DecidableEq

/-- A pandas dataframe holding master OFAC data: the column-name list
(modelling `df.columns`) plus the rows. -/
structure MasterDF where
  cols : List String
  rows : List MasterRow
deriving DecidableEq

/-- `data_processor.compute_country_risk_metrics` line 115:
`df[SDN_TYPE_COL].fillna("").str.lower() == "individual"`. -/
def isIndividual (r : MasterRow) : Bool :=
  pyLower (r.sdnType.getD "") == "individual"

/-- Rows of one `groupby(COUNTRY_COL)` group. -/
def rowsForCountry (df : MasterDF) (c : String) : List MasterRow :=
  df.rows.filter (fun r => r.country == c)

/-- `groupby(...)[JOIN_COLUMN].nunique()` for one group: number of distinct
`ent_num` values. -/
def nuniqueEnt (l : List MasterRow) : ℕ :=
  (l.map (fun r => r.entNum)).dedup.length

/-- "Total Distinct Entities" for one country (line 114). -/
def totalDistinctEntities (df : MasterDF) (c : String) : ℕ :=
  nuniqueEnt (rowsForCountry df c)

/-- "Distinct Individuals" for one country (line 115).  The source filters on
`SDN_Type` before grouping by country; filtering the group is the same. -/
def distinctIndividuals (df : MasterDF) (c : String) : ℕ :=
  nuniqueEnt ((rowsForCountry df c).filter isIndividual)

/-- "Distinct Non-Individuals" for one country (line 116). -/
def distinctNonIndividuals (df : MasterDF) (c : String) : ℕ :=
  nuniqueEnt ((rowsForCountry df c).filter (fun r => !(isIndividual r)))

/-- The countries appearing in the master table, in first-occurrence order
(pandas sorts group keys; all claims below are per-row, so order is
immaterial). -/
def countriesOf (df : MasterDF) : List String :=
  (df.rows.map (fun r => r.country)).dedup

/-- One row of the Country Metrics table (lines 114-129): counts, ratings,
and the mapped colors/scores (`none` models NaN for a label missing from the
config maps, which never occurs). -/
structure CountryMetricsRow where
  country : String
  total : ℕ
  individuals : ℕ
  nonIndividuals : ℕ
  ratingTotal : String
  ratingPersonal : String
  ratingNonPersonal : String
  colorTotal : Option String
  colorPersonal : Option String
  colorNonPersonal : Option String
  scoreTotal : Option ℕ
  scorePersonal : Option ℕ
  scoreNonPersonal : Option ℕ
deriving DecidableEq

/-- The Country Metrics row of one country. -/
def metricsRowFor (df : MasterDF) (c : String) : CountryMetricsRow :=
  let t := totalDistinctEntities df c
  let i := distinctIndividuals df c
  let n := distinctNonIndividuals df c
  let rt := apply_risk_rating (t : ℚ)
  let rp := apply_risk_rating (i : ℚ)
  let rn := apply_risk_rating (n : ℚ)
  { country := c, total := t, individuals := i, nonIndividuals := n,
    ratingTotal := rt, ratingPersonal := rp, ratingNonPersonal := rn,
    colorTotal := RISK_COLOR_MAP.lookup rt,
    colorPersonal := RISK_COLOR_MAP.lookup rp,
    colorNonPersonal := RISK_COLOR_MAP.lookup rn,
    scoreTotal := RISK_SCORE_MAP.lookup rt,
    scorePersonal := RISK_SCORE_MAP.lookup rp,
    scoreNonPersonal := RISK_SCORE_MAP.lookup rn }

/-- Payload of `compute_country_risk_metrics` when the schema check passes. -/
def metricsRows (df : MasterDF) : List CountryMetricsRow :=
  (countriesOf df).map (metricsRowFor df)

/-- Columns required by `compute_country_risk_metrics` (line 110). -/
def cmRequiredCols : List String := ["ent_num", "SDN_Type", "Country"]

/-- First column of `req` missing from `cols`: the loop
`for c in [...]: if c not in df.columns: raise ValueError(...)`. -/
def firstMissing (req cols : List String) : Option String :=
  req.find? (fun c => !(cols.contains c))

/-- The `ValueError` message text of `data_processor.py` lines 112 and 180
(`\x27` is the ASCII single quote). -/
def valueErrorMsg (c : String) : String :=
  "Input dataframe must contain column \x27" ++ c ++ "\x27"

/-- `data_processor.compute_country_risk_metrics` (lines 108-131). -/
def computeCountryRiskMetrics (df : MasterDF) :
    Except String (List CountryMetricsRow) :=
  match firstMissing cmRequiredCols df.cols with
  | some c => Except.error (valueErrorMsg c)
  | none => Except.ok (metricsRows df)

/-- Master table on which the C2 partition invariant fails: the same
`ent_num` occurs once typed "individual" and once typed "entity". -/
def exC2 : MasterDF :=
  { cols := ["ent_num", "SDN_Type", "Country"],
    rows := [{ entNum := 1, sdnType := some "individual", country := "Syria",
               program := "PX", riskScore := 0 },
             { entNum := 1, sdnType := some "entity", country := "Syria",
               program := "PX", riskScore := 0 }] }

lemma mem_rowsForCountry {df : MasterDF} {c : String} {r : MasterRow}
    (h : r ∈ rowsForCountry df c) : r ∈ df.rows :=
  (List.mem_filter.mp h).1

lemma partition_counts (df : MasterDF) (c : String)
    (hcons : ∀ r ∈ df.rows, ∀ s ∈ df.rows,
      r.entNum = s.entNum → isIndividual r = isIndividual s) :
    distinctIndividuals df c + distinctNonIndividuals df c =
      totalDistinctEntities df c := by
  classical
  unfold distinctIndividuals distinctNonIndividuals totalDistinctEntities nuniqueEnt
  rw [← List.card_toFinset, ← List.card_toFinset, ← List.card_toFinset]
  set A := (((rowsForCountry df c).filter isIndividual).map
    (fun r => r.entNum)).toFinset with hA
  set B := (((rowsForCountry df c).filter (fun r => !(isIndividual r))).map
    (fun r => r.entNum)).toFinset with hB
  set T := ((rowsForCountry df c).map (fun r => r.entNum)).toFinset with hT
  have hunion : A ∪ B = T := by
    ext x
    simp only [hA, hB, hT, Finset.mem_union, List.mem_toFinset, List.mem_map,
      List.mem_filter]
    constructor
    · rintro (⟨r, ⟨hr, _⟩, he⟩ | ⟨r, ⟨hr, _⟩, he⟩) <;> exact ⟨r, hr, he⟩
    · rintro ⟨r, hr, he⟩
      by_cases hi : isIndividual r
      · exact Or.inl ⟨r, ⟨hr, hi⟩, he⟩
      · exact Or.inr ⟨r, ⟨hr, by simp [hi]⟩, he⟩
  have hinter : A ∩ B = ∅ := by
    ext x
    simp only [hA, hB, Finset.mem_inter, List.mem_toFinset, List.mem_map,
      List.mem_filter, Finset.not_mem_empty, iff_false, not_and]
    rintro ⟨r, ⟨hr, hri⟩, hre⟩ ⟨s, ⟨hs, hsi⟩, hse⟩
    have hrs := hcons r (mem_rowsForCountry hr) s (mem_rowsForCountry hs)
      (by rw [hre, hse])
    rw [hrs] at hri
    simp [hri] at hsi
  have hcard := Finset.card_union_add_card_inter A B
  rw [hunion, hinter] at hcard
  simp only [Finset.card_empty, add_zero] at hcard
  exact hcard.symm

lemma computeCountryRiskMetrics_ok {df : MasterDF}
    {out : List CountryMetricsRow}
    (h : computeCountryRiskMetrics df = Except.ok out) :
    out = metricsRows df := by
  unfold computeCountryRiskMetrics at h
  split at h
  · exact Except.noConfusion h
  · injection h with h2
    exact h2.symm

/-- C2 counterexample: on `exC2` the Country Metrics row for "Syria" has
distinct-individual count 1 and distinct-non-individual count 1, but total
distinct entity count 1, because the single `ent_num` is typed both ways. -/
theorem compute_country_risk_metrics_partition_counterexample :
    computeCountryRiskMetrics exC2 = Except.ok (metricsRows exC2) ∧
    metricsRowFor exC2 "Syria" ∈ metricsRows exC2 ∧
    (metricsRowFor exC2 "Syria").individuals +
      (metricsRowFor exC2 "Syria").nonIndividuals ≠
      (metricsRowFor exC2 "Syria").total :=
  ⟨rfl, List.mem_map_of_mem (metricsRowFor exC2) (by decide), by decide⟩

/-- C2 amended: when every `ent_num` is typed consistently across the rows of
the master table (the binary partition of entities the spec presumes), each
Country Metrics row satisfies individuals + non-individuals = total. -/
theorem compute_country_risk_metrics_partition_of_consistent_types
    (df : MasterDF) (out : List CountryMetricsRow)
    (hok : computeCountryRiskMetrics df = Except.ok out)
    (hcons : ∀ r ∈ df.rows, ∀ s ∈ df.rows,
      r.entNum = s.entNum → isIndividual r = isIndividual s)
    (row : CountryMetricsRow) (hrow : row ∈ out) :
    row.individuals + row.nonIndividuals = row.total := by
  obtain rfl := computeCountryRiskMetrics_ok hok
  obtain ⟨c, _, rfl⟩ := List.mem_map.mp hrow
  exact partition_counts df c hcons

/-- Master table with per-entity-consistent types used by the C2 witness. -/
def exC2W : MasterDF :=
  { cols := ["ent_num", "SDN_Type", "Country"],
    rows := [{ entNum := 1, sdnType := some "individual", country := "Syria",
               program := "PX", riskScore := 0 },
             { entNum := 2, sdnType := some "entity", country := "Syria",
               program := "PX", riskScore := 0 }] }

/-- Witness for the amended C2 at the concrete table `exC2W`. -/
theorem compute_country_risk_metrics_partition_of_consistent_types_witness :
    (metricsRowFor exC2W "Syria").individuals +
      (metricsRowFor exC2W "Syria").nonIndividuals =
      (metricsRowFor exC2W "Syria").total :=
  compute_country_risk_metrics_partition_of_consistent_types exC2W
    (metricsRows exC2W) rfl (by decide) (metricsRowFor exC2W "Syria")
    (List.mem_map_of_mem (metricsRowFor exC2W) (by decide))

/-- Row of a dataframe as seen by the country-normalization passes: the
`Country` cell (modelled as a string, so `astype(str)` is the identity) and
the cells of all other columns. -/
structure CleanRow where
  country : String
  other : List String
deriving DecidableEq

/-- A dataframe for the country-normalization passes.  `hasCountry` models
`"Country" in df.columns`. -/
structure CleanDF where
  hasCountry : Bool
  rows : List CleanRow
deriving DecidableEq

/-- Per-row effect of `data_processor.clean_invalid_countries` (lines 78-82):
rows whose stripped Country equals "-0-" get Country set to "Unknown SDN". -/
def cleanRowFun (r : CleanRow) : CleanRow :=
  if pyStrip r.country == "-0-" then { r with country := "Unknown SDN" } else r

/-- `data_processor.clean_invalid_countries` (lines 69-85).  The source builds
a boolean mask and assigns under it (skipping the assignment when the mask is
empty); value-wise this is the per-row map below. -/
def cleanInvalidCountries (df : CleanDF) : CleanDF :=
  if df.hasCountry then { df with rows := df.rows.map cleanRowFun } else df

/-- Per-row effect of the `app.py` tab-1 safeguard (lines 204-205):
`master_df["Country"].astype(str).str.strip().replace({"-0-": "Unknown"})`.
Note this pass keeps the stripped value for non-placeholder cells. -/
def appSafeguardRowFun (r : CleanRow) : CleanRow :=
  let s := pyStrip r.country
  { r with country := if s == "-0-" then "Unknown" else s }

/-- The `app.py` tab-1 country normalization safeguard (lines 204-205),
guarded by `if "Country" in master_df.columns`. -/
def appCountrySafeguard (df : CleanDF) : CleanDF :=
  if df.hasCountry then { df with rows := df.rows.map appSafeguardRowFun } else df

/-- The failing input for C3: a one-row frame whose Country is "-0-". -/
def exC3 : CleanDF :=
  { hasCountry := true, rows := [{ country := "-0-", other := [] }] }

/-- C3: the pipeline normalization pass `clean_invalid_countries` rewrites the
placeholder "-0-" to "Unknown SDN", not to "Unknown" as its own docstring and
the spec state; the `app.py` safeguard is the call site that writes "Unknown".
Evaluation at the failing input `exC3`. -/
theorem clean_invalid_countries_writes_unknown_sdn :
    (cleanInvalidCountries exC3).rows = [{ country := "Unknown SDN", other := [] }] ∧
    "Unknown SDN" ≠ "Unknown" ∧
    (appCountrySafeguard exC3).rows = [{ country := "Unknown", other := [] }] :=
  ⟨by decide, by decide, by decide⟩

lemma mem_zip_self {α : Type} {l : List α} {p : α × α} (hp : p ∈ l.zip l) :
    p.1 = p.2 := by
  induction l with
  | nil => cases hp
  | cons a t ih =>
    cases hp with
    | head => rfl
    | tail _ h => exact ih h

lemma mem_zip_map_self {α : Type} {g : α → α} {l : List α} {p : α × α}
    (hp : p ∈ (l.map g).zip l) : p.1 = g p.2 := by
  rw [List.zip_map_left] at hp
  obtain ⟨q, hq, hpe⟩ := List.mem_map.mp hp
  have hq2 := mem_zip_self hq
  rw [← hpe]
  simp only [Prod.map]
  rw [hq2]
  rfl

lemma cleanRowFun_other (r : CleanRow) : (cleanRowFun r).other = r.other := by
  unfold cleanRowFun
  split <;> rfl

lemma cleanRowFun_of_not_placeholder (r : CleanRow)
    (h : pyStrip r.country ≠ "-0-") : cleanRowFun r = r := by
  unfold cleanRowFun
  rw [if_neg]
  simp only [beq_iff_eq]
  exact h

/-- C10: `clean_invalid_countries` preserves the row count, returns the input
unchanged when there is no Country column, and changes nothing but the Country
cells whose stripped value is the placeholder "-0-". -/
theorem clean_invalid_countries_frame_effects (df : CleanDF) :
    (cleanInvalidCountries df).rows.length = df.rows.length ∧
    (df.hasCountry = false → cleanInvalidCountries df = df) ∧
    (∀ p ∈ (cleanInvalidCountries df).rows.zip df.rows,
      p.1.other = p.2.other ∧
      (pyStrip p.2.country ≠ "-0-" → p.1.country = p.2.country)) := by
  cases h : df.hasCountry with
  | false =>
    have he : cleanInvalidCountries df = df := by
      unfold cleanInvalidCountries
      rw [h]
      simp
    rw [he]
    refine ⟨rfl, fun _ => rfl, ?_⟩
    intro p hp
    have hps := mem_zip_self hp
    exact ⟨by rw [hps], fun _ => by rw [hps]⟩
  | true =>
    have he : (cleanInvalidCountries df).rows = df.rows.map cleanRowFun := by
      unfold cleanInvalidCountries
      rw [h]
      simp
    refine ⟨?_, ?_, ?_⟩
    · rw [he, List.length_map]
    · intro h0
      exact Bool.noConfusion h0
    · intro p hp
      rw [he] at hp
      have hp1 := mem_zip_map_self hp
      constructor
      · rw [hp1, cleanRowFun_other]
      · intro hne
        rw [hp1, cleanRowFun_of_not_placeholder p.2 hne]

/-- Frame with one placeholder row and one normal row, for the C10 witness. -/
def exCleanA : CleanDF :=
  { hasCountry := true,
    rows := [{ country := " -0- ", other := ["a"] },
             { country := "France", other := ["b"] }] }

/-- Frame without a Country column, for the C10 witness. -/
def exCleanB : CleanDF :=
  { hasCountry := false, rows := [{ country := "-0-", other := ["z"] }] }

/-- The pair the "France" row contributes to the zip in the C10 statement. -/
def exCleanPair : CleanRow × CleanRow :=
  ({ country := "France", other := ["b"] }, { country := "France", other := ["b"] })

/-- Witness for C10 at the concrete frames `exCleanA` and `exCleanB`. -/
theorem clean_invalid_countries_frame_effects_witness :
    (cleanInvalidCountries exCleanA).rows.length = exCleanA.rows.length ∧
    cleanInvalidCountries exCleanB = exCleanB ∧
    (exCleanPair.1.other = exCleanPair.2.other ∧
      exCleanPair.1.country = exCleanPair.2.country) :=
  ⟨(clean_invalid_countries_frame_effects exCleanA).1,
   (clean_invalid_countries_frame_effects exCleanB).2.1 (by decide),
   ⟨((clean_invalid_countries_frame_effects exCleanA).2.2 exCleanPair (by decide)).1,
    ((clean_invalid_countries_frame_effects exCleanA).2.2 exCleanPair (by decide)).2
      (by decide)⟩⟩

/-- `groupby([COUNTRY_COL, SDN_PROGRAM_COLUMN])` keys present in the master
table, in first-occurrence order. -/
def groupKeys (df : MasterDF) : List (String × String) :=
  (df.rows.map (fun r => (r.country, r.program))).dedup

/-- Rows of one (Country, Sanctions Program) group. -/
def groupRows (df : MasterDF) (k : String × String) : List MasterRow :=
  df.rows.filter (fun r => r.country == k.1 && r.program == k.2)

/-- numpy/pandas `.round` to an integer, modelled exactly: round half to even
in exact rational arithmetic. -/
def roundHalfEven (q : ℚ) : ℤ :=
  let f := ⌊q⌋
  if q - f < 1/2 then f
  else if 1/2 < q - f then f + 1
  else if 2 ∣ f then f else f + 1

/-- pandas `Series.round(n)`: round half to even at the n-th decimal. -/
def roundTo (n : ℕ) (q : ℚ) : ℚ :=
  (roundHalfEven (q * 10 ^ n) : ℚ) / 10 ^ n

/-- `data_processor.prepare_pivot_data` inner `risk_color` (lines 208-213). -/
def dpRiskColor (score : ℚ) : String :=
  if score < 2 then "#2E4A1E"
  else if score < 3 then "#9ACD32"
  else if score < 4 then "#FFFF00"
  else if score < 5 then "#FFA500"
  else "#FF0000"

/-- `mean` of the group's `Risk_Score` column. -/
def meanRiskScore (l : List MasterRow) : ℚ :=
  (l.map (fun r => r.riskScore)).sum / (l.length : ℚ)

/-- Row of the pivot produced by `data_processor.prepare_pivot_data`
(its stated output contract: Country, Sanctions Program, SDN_Count,
Avg_Risk_Score, Risk_Color; the count-fallback path also carries Risk_Level
and Risk_Score columns, which no claim is about). -/
structure DpPivotRow where
  country : String
  program : String
  sdnCount : ℕ
  avgRiskScore : ℚ
  riskColor : String
deriving DecidableEq

/-- One output row of `data_processor.prepare_pivot_data` (lines 182-216):
when a `Risk_Score` column exists, Avg_Risk_Score is the group mean of it;
otherwise it is the score of the tier classifying the group's own distinct
entity count.  Either way the result is rounded to 2 decimals and colored by
`risk_color`. -/
def dpPivotRowFor (df : MasterDF) (k : String × String) : DpPivotRow :=
  let g := groupRows df k
  let cnt := nuniqueEnt g
  let raw : ℚ :=
    if df.cols.contains "Risk_Score" then meanRiskScore g
    else ((RISK_SCORE_MAP.lookup (apply_risk_rating (cnt : ℚ))).getD 0 : ℚ)
  let avg := roundTo 2 raw
  { country := k.1, program := k.2, sdnCount := cnt, avgRiskScore := avg,
    riskColor := dpRiskColor avg }

/-- Payload of `data_processor.prepare_pivot_data` when the schema check
passes. -/
def dpPivotRows (df : MasterDF) : List DpPivotRow :=
  (groupKeys df).map (dpPivotRowFor df)

/-- Columns required by `data_processor.prepare_pivot_data` (line 178). -/
def dpPivotRequiredCols : List String := ["ent_num", "Sanctions Program", "Country"]

/-- `data_processor.prepare_pivot_data` (lines 170-217). -/
def dpPreparePivotData (df : MasterDF) : Except String (List DpPivotRow) :=
  match firstMissing dpPivotRequiredCols df.cols with
  | some c => Except.error (valueErrorMsg c)
  | none => Except.ok (dpPivotRows df)

/-- `pivot_risk_visuals.prepare_pivot_data` count-fallback score (line 116):
`1 if x <= 200 else (2 if x <= 400 else (3 if x <= 600 else (4 if x <= 800
else (5 if x <= 1000 else 6))))`. -/
def pvFallbackScore (x : ℕ) : ℚ :=
  if x ≤ 200 then 1
  else if x ≤ 400 then 2
  else if x ≤ 600 then 3
  else if x ≤ 800 then 4
  else if x ≤ 1000 then 5
  else 6

/-- Row of the country-by-program pivot of
`pivot_risk_visuals.prepare_pivot_data`: Country, Sanctions Program,
Total_SDNs, Avg_Risk_Score. -/
structure PvPivotRow where
  country : String
  program : String
  totalSDNs : ℕ
  avgRiskScore : ℚ
deriving DecidableEq

/-- One output row of `pivot_risk_visuals.prepare_pivot_data`
(lines 107-130): group mean of `Risk_Score` when the column exists, else
count-based fallback score; rounded to 1 decimal. -/
def pvPivotRowFor (df : MasterDF) (k : String × String) : PvPivotRow :=
  let g := groupRows df k
  let cnt := nuniqueEnt g
  let raw : ℚ :=
    if df.cols.contains "Risk_Score" then meanRiskScore g
    else pvFallbackScore cnt
  { country := k.1, program := k.2, totalSDNs := cnt,
    avgRiskScore := roundTo 1 raw }

/-- Payload of `pivot_risk_visuals.prepare_pivot_data` when its checks pass. -/
def pvPivotRows (df : MasterDF) : List PvPivotRow :=
  (groupKeys df).map (pvPivotRowFor df)

/-- Columns checked explicitly by `pivot_risk_visuals.prepare_pivot_data`
(lines 98-101). -/
def pvRequiredCols : List String := ["Country", "Sanctions Program"]

/-- `pivot_risk_visuals.prepare_pivot_data` (lines 96-137).  The `ent_num`
branch models the pandas `KeyError` raised by the `groupby` column selection
when `ent_num` is absent: both aggregation paths select it (lines 111 and
123).  The source's final 20000-row `sample` guard is omitted: it keeps a
subset of the pivot rows, so the per-row properties proved below are
unaffected by it. -/
def pvPreparePivotData (df : MasterDF) : Except String (List PvPivotRow) :=
  match firstMissing pvRequiredCols df.cols with
  | some c => Except.error ("Missing required column: " ++ c)
  | none =>
    if df.cols.contains "ent_num" then Except.ok (pvPivotRows df)
    else Except.error "Column not found: ent_num"

lemma dpPreparePivotData_ok {df : MasterDF} {out : List DpPivotRow}
    (h : dpPreparePivotData df = Except.ok out) : out = dpPivotRows df := by
  unfold dpPreparePivotData at h
  split at h
  · exact Except.noConfusion h
  · injection h with h2
    exact h2.symm

lemma pvPreparePivotData_ok {df : MasterDF} {out : List PvPivotRow}
    (h : pvPreparePivotData df = Except.ok out) : out = pvPivotRows df := by
  unfold pvPreparePivotData at h
  split at h
  · exact Except.noConfusion h
  · split at h
    · injection h with h2
      exact h2.symm
    · exact Except.noConfusion h

lemma roundTo_mul_denom (n : ℕ) (q : ℚ) :
    ∃ z : ℤ, roundTo n q = (z : ℚ) / 10 ^ n :=
  ⟨roundHalfEven (q * 10 ^ n), rfl⟩

/-- C4: every Avg_Risk_Score produced by either pivot-preparation path of
`data_processor.prepare_pivot_data` is an integer multiple of 1/100 (rounded
to 2 decimals), and every Avg_Risk_Score produced by
`pivot_risk_visuals.prepare_pivot_data` is an integer multiple of 1/10
(rounded to 1 decimal); quantifying over all frames covers both the
`Risk_Score`-present (mean) path and the count-fallback path, and the field
is a rational, i.e. numeric, in both. -/
theorem prepare_pivot_data_avg_risk_score_rounding :
    (∀ df out, dpPreparePivotData df = Except.ok out → ∀ r ∈ out,
      ∃ z : ℤ, r.avgRiskScore = (z : ℚ) / 100) ∧
    (∀ df out, pvPreparePivotData df = Except.ok out → ∀ r ∈ out,
      ∃ z : ℤ, r.avgRiskScore = (z : ℚ) / 10) := by
  constructor
  · intro df out hok r hr
    obtain rfl := dpPreparePivotData_ok hok
    obtain ⟨k, _, rfl⟩ := List.mem_map.mp hr
    obtain ⟨z, hz⟩ := roundTo_mul_denom 2 (if df.cols.contains "Risk_Score"
      then meanRiskScore (groupRows df k)
      else ((RISK_SCORE_MAP.lookup
        (apply_risk_rating ((nuniqueEnt (groupRows df k)) : ℚ))).getD 0 : ℚ))
    refine ⟨z, ?_⟩
    show roundTo 2 _ = (z : ℚ) / 100
    rw [hz]
    norm_num
  · intro df out hok r hr
    obtain rfl := pvPreparePivotData_ok hok
    obtain ⟨k, _, rfl⟩ := List.mem_map.mp hr
    obtain ⟨z, hz⟩ := roundTo_mul_denom 1 (if df.cols.contains "Risk_Score"
      then meanRiskScore (groupRows df k)
      else pvFallbackScore (nuniqueEnt (groupRows df k)))
    refine ⟨z, ?_⟩
    show roundTo 1 _ = (z : ℚ) / 10
    rw [hz]
    norm_num

/-- One-row master frame carrying an upstream `Risk_Score` column. -/
def exPivotRS : MasterDF :=
  { cols := ["ent_num", "Sanctions Program", "Country", "Risk_Score"],
    rows := [{ entNum := 1, sdnType := some "entity", country := "Cuba",
               program := "CU", riskScore := 3 }] }

/-- The same frame without a `Risk_Score` column (count-fallback path). -/
def exPivotNoRS : MasterDF :=
  { cols := ["ent_num", "Sanctions Program", "Country"],
    rows := [{ entNum := 1, sdnType := some "entity", country := "Cuba",
               program := "CU", riskScore := 3 }] }

/-- Witness for C4 at concrete frames exercising both paths of both pivot
preparations. -/
theorem prepare_pivot_data_avg_risk_score_rounding_witness :
    (∃ z : ℤ, (dpPivotRowFor exPivotRS ("Cuba", "CU")).avgRiskScore =
      (z : ℚ) / 100) ∧
    (∃ z : ℤ, (dpPivotRowFor exPivotNoRS ("Cuba", "CU")).avgRiskScore =
      (z : ℚ) / 100) ∧
    (∃ z : ℤ, (pvPivotRowFor exPivotRS ("Cuba", "CU")).avgRiskScore =
      (z : ℚ) / 10) ∧
    (∃ z : ℤ, (pvPivotRowFor exPivotNoRS ("Cuba", "CU")).avgRiskScore =
      (z : ℚ) / 10) :=
  ⟨prepare_pivot_data_avg_risk_score_rounding.1 exPivotRS (dpPivotRows exPivotRS)
     rfl (dpPivotRowFor exPivotRS ("Cuba", "CU"))
     (List.mem_map_of_mem (dpPivotRowFor exPivotRS) (by decide)),
   prepare_pivot_data_avg_risk_score_rounding.1 exPivotNoRS (dpPivotRows exPivotNoRS)
     rfl (dpPivotRowFor exPivotNoRS ("Cuba", "CU"))
     (List.mem_map_of_mem (dpPivotRowFor exPivotNoRS) (by decide)),
   prepare_pivot_data_avg_risk_score_rounding.2 exPivotRS (pvPivotRows exPivotRS)
     rfl (pvPivotRowFor exPivotRS ("Cuba", "CU"))
     (List.mem_map_of_mem (pvPivotRowFor exPivotRS) (by decide)),
   prepare_pivot_data_avg_risk_score_rounding.2 exPivotNoRS (pvPivotRows exPivotNoRS)
     rfl (pvPivotRowFor exPivotNoRS ("Cuba", "CU"))
     (List.mem_map_of_mem (pvPivotRowFor exPivotNoRS) (by decide))⟩

lemma dpRiskColor_props (q : ℚ) :
    dpRiskColor q ∈ ["#2E4A1E", "#9ACD32", "#FFFF00", "#FFA500", "#FF0000"] ∧
    dpRiskColor q ≠ "#800080" ∧
    ((5 : ℚ) ≤ q → dpRiskColor q = "#FF0000") := by
  unfold dpRiskColor
  split_ifs <;>
    refine ⟨by decide, by decide, fun h5 => ?_⟩ <;>
    first | rfl | (exfalso; linarith)

/-- C9: every Risk_Color of `data_processor.prepare_pivot_data` is one of the
five values of the inline `risk_color` thresholds; the configured Critical
color #800080 of `RISK_COLOR_MAP` never appears, and every row with
Avg_Risk_Score ≥ 5 gets #FF0000. -/
theorem prepare_pivot_data_risk_color_range (df : MasterDF)
    (out : List DpPivotRow) (hok : dpPreparePivotData df = Except.ok out)
    (r : DpPivotRow) (hr : r ∈ out) :
    RISK_COLOR_MAP.lookup "Critical" = some "#800080" ∧
    r.riskColor ∈ ["#2E4A1E", "#9ACD32", "#FFFF00", "#FFA500", "#FF0000"] ∧
    r.riskColor ≠ "#800080" ∧
    ((5 : ℚ) ≤ r.avgRiskScore → r.riskColor = "#FF0000") := by
  obtain rfl := dpPreparePivotData_ok hok
  obtain ⟨k, _, rfl⟩ := List.mem_map.mp hr
  exact ⟨by decide, dpRiskColor_props ((dpPivotRowFor df k).avgRiskScore)⟩

/-- Witness for C9 at the concrete frame `exPivotNoRS`. -/
theorem prepare_pivot_data_risk_color_range_witness :
    RISK_COLOR_MAP.lookup "Critical" = some "#800080" ∧
    (dpPivotRowFor exPivotNoRS ("Cuba", "CU")).riskColor ∈
      ["#2E4A1E", "#9ACD32", "#FFFF00", "#FFA500", "#FF0000"] ∧
    (dpPivotRowFor exPivotNoRS ("Cuba", "CU")).riskColor ≠ "#800080" ∧
    ((5 : ℚ) ≤ (dpPivotRowFor exPivotNoRS ("Cuba", "CU")).avgRiskScore →
      (dpPivotRowFor exPivotNoRS ("Cuba", "CU")).riskColor = "#FF0000") :=
  prepare_pivot_data_risk_color_range exPivotNoRS (dpPivotRows exPivotNoRS) rfl
    (dpPivotRowFor exPivotNoRS ("Cuba", "CU"))
    (List.mem_map_of_mem (dpPivotRowFor exPivotNoRS) (by decide))

lemma firstMissing_of_exists {req cols : List String}
    (h : ∃ c ∈ req, cols.contains c = false) :
    ∃ c, firstMissing req cols = some c ∧ c ∈ req ∧ cols.contains c = false := by
  obtain ⟨c, hc, hcc⟩ := h
  have hs : (req.find? (fun c => !(cols.contains c))).isSome := by
    rw [List.find?_isSome]
    refine ⟨c, hc, ?_⟩
    rw [hcc]
    decide
  obtain ⟨c0, hc0⟩ := Option.isSome_iff_exists.mp hs
  refine ⟨c0, hc0, List.mem_of_find?_eq_some hc0, ?_⟩
  have hp := List.find?_some hc0
  simpa using hp

/-- C5: when a required column is absent, each aggregation returns an error
naming a missing required column and returns no result table: the Country
Metrics builder requires ent_num/SDN_Type/Country, the
`data_processor` pivot requires ent_num/Sanctions Program/Country, and the
`pivot_risk_visuals` pivot checks Country and Sanctions Program explicitly
while a missing ent_num surfaces as the pandas KeyError naming ent_num. -/
theorem aggregation_missing_column_errors :
    (∀ df : MasterDF, (∃ c ∈ cmRequiredCols, df.cols.contains c = false) →
      ∃ c msg, c ∈ cmRequiredCols ∧ df.cols.contains c = false ∧
        computeCountryRiskMetrics df = Except.error msg ∧
        (∃ pre post, msg = pre ++ c ++ post) ∧
        ∀ out, computeCountryRiskMetrics df ≠ Except.ok out) ∧
    (∀ df : MasterDF, (∃ c ∈ dpPivotRequiredCols, df.cols.contains c = false) →
      ∃ c msg, c ∈ dpPivotRequiredCols ∧ df.cols.contains c = false ∧
        dpPreparePivotData df = Except.error msg ∧
        (∃ pre post, msg = pre ++ c ++ post) ∧
        ∀ out, dpPreparePivotData df ≠ Except.ok out) ∧
    (∀ df : MasterDF,
      (∃ c ∈ pvRequiredCols ++ ["ent_num"], df.cols.contains c = false) →
      ∃ c msg, c ∈ pvRequiredCols ++ ["ent_num"] ∧ df.cols.contains c = false ∧
        pvPreparePivotData df = Except.error msg ∧
        (∃ pre post, msg = pre ++ c ++ post) ∧
        ∀ out, pvPreparePivotData df ≠ Except.ok out) := by
  refine ⟨?_, ?_, ?_⟩
  · intro df h
    obtain ⟨c0, hfm, hmem, hcc⟩ := firstMissing_of_exists h
    have heq : computeCountryRiskMetrics df = Except.error (valueErrorMsg c0) := by
      unfold computeCountryRiskMetrics
      rw [hfm]
    refine ⟨c0, valueErrorMsg c0, hmem, hcc, heq,
      ⟨"Input dataframe must contain column \x27", "\x27", rfl⟩, ?_⟩
    intro out hout
    rw [heq] at hout
    exact Except.noConfusion hout
  · intro df h
    obtain ⟨c0, hfm, hmem, hcc⟩ := firstMissing_of_exists h
    have heq : dpPreparePivotData df = Except.error (valueErrorMsg c0) := by
      unfold dpPreparePivotData
      rw [hfm]
    refine ⟨c0, valueErrorMsg c0, hmem, hcc, heq,
      ⟨"Input dataframe must contain column \x27", "\x27", rfl⟩, ?_⟩
    intro out hout
    rw [heq] at hout
    exact Except.noConfusion hout
  · intro df h
    by_cases hall : ∀ c ∈ pvRequiredCols, df.cols.contains c = true
    · have hfm : firstMissing pvRequiredCols df.cols = none := by
        rw [firstMissing, List.find?_eq_none]
        intro x hx
        rw [hall x hx]
        decide
      have hent : df.cols.contains "ent_num" = false := by
        obtain ⟨c, hc, hcc⟩ := h
        rcases List.mem_append.mp hc with hc1 | hc2
        · rw [hall c hc1] at hcc
          exact Bool.noConfusion hcc
        · have hce : c = "ent_num" := by simpa using hc2
          rw [← hce]
          exact hcc
      have heq : pvPreparePivotData df =
          Except.error "Column not found: ent_num" := by
        unfold pvPreparePivotData
        rw [hfm, hent]
        rfl
      refine ⟨"ent_num", "Column not found: ent_num", by decide, hent, heq,
        ⟨"Column not found: ", "", rfl⟩, ?_⟩
      intro out hout
      rw [heq] at hout
      exact Except.noConfusion hout
    · push_neg at hall
      obtain ⟨c, hc, hcc⟩ := hall
      have hccf : df.cols.contains c = false := by
        cases hb : df.cols.contains c
        · rfl
        · exact absurd hb hcc
      obtain ⟨c0, hfm, hmem, hc0c⟩ := firstMissing_of_exists ⟨c, hc, hccf⟩
      have heq : pvPreparePivotData df =
          Except.error ("Missing required column: " ++ c0) := by
        unfold pvPreparePivotData
        rw [hfm]
      refine ⟨c0, "Missing required column: " ++ c0,
        List.mem_append_left _ hmem, hc0c, heq,
        ⟨"Missing required column: ", "", (String.append_empty _).symm⟩, ?_⟩
      intro out hout
      rw [heq] at hout
      exact Except.noConfusion hout

/-- Frame missing the Country column. -/
def exMissCountry : MasterDF := { cols := ["ent_num", "SDN_Type"], rows := [] }

/-- Frame missing the Sanctions Program column. -/
def exMissProgram : MasterDF := { cols := ["ent_num", "Country"], rows := [] }

/-- Frame missing only the ent_num column. -/
def exMissEnt : MasterDF := { cols := ["Country", "Sanctions Program"], rows := [] }

/-- Witness for C5 at three concrete frames, one per aggregation, the last
exercising the implicit ent_num KeyError path. -/
theorem aggregation_missing_column_errors_witness :
    (∃ c msg, c ∈ cmRequiredCols ∧ exMissCountry.cols.contains c = false ∧
      computeCountryRiskMetrics exMissCountry = Except.error msg ∧
      (∃ pre post, msg = pre ++ c ++ post) ∧
      ∀ out, computeCountryRiskMetrics exMissCountry ≠ Except.ok out) ∧
    (∃ c msg, c ∈ dpPivotRequiredCols ∧ exMissProgram.cols.contains c = false ∧
      dpPreparePivotData exMissProgram = Except.error msg ∧
      (∃ pre post, msg = pre ++ c ++ post) ∧
      ∀ out, dpPreparePivotData exMissProgram ≠ Except.ok out) ∧
    (∃ c msg, c ∈ pvRequiredCols ++ ["ent_num"] ∧
      exMissEnt.cols.contains c = false ∧
      pvPreparePivotData exMissEnt = Except.error msg ∧
      (∃ pre post, msg = pre ++ c ++ post) ∧
      ∀ out, pvPreparePivotData exMissEnt ≠ Except.ok out) :=
  ⟨aggregation_missing_column_errors.1 exMissCountry (by decide),
   aggregation_missing_column_errors.2.1 exMissProgram (by decide),
   aggregation_missing_column_errors.2.2 exMissEnt (by decide)⟩

/-- Row of the table the dashboard filter layer operates on (`metrics_df` /
`df_vis` in `app.py`): the two filterable dimensions, the ranking metric
"Total Distinct Entities", and the remaining cells. -/
structure VisRow where
  country : String
  program : String
  totalDistinct : ℕ
  payload : List String
deriving DecidableEq

/-- Comparator of `nlargest` on the metric: `a` may precede `b` when
`b.totalDistinct ≤ a.totalDistinct` (descending; stable for ties). -/
def visLe (a b : VisRow) : Bool :=
  decide (b.totalDistinct ≤ a.totalDistinct)

/-- Dimension filter of the layer (`app.py` lines 277-283 and 132-135): keep
the rows whose dimension value is in the selection; an empty selection list
is falsy in Python (`if selected_countries:`), so it applies no filter. -/
def filterByDim (dim : VisRow → String) (sel : List String)
    (T : List VisRow) : List VisRow :=
  if sel.isEmpty then T else T.filter (fun r => sel.contains (dim r))

/-- `df_vis.nlargest(top_n_country, "Total Distinct Entities")` (`app.py`
lines 286-287): stable descending sort by the metric truncated to N (pandas
`nlargest` keeps earlier rows among ties, matching a stable sort). -/
def nlargestByTotal (N : ℕ) (T : List VisRow) : List VisRow :=
  (T.mergeSort visLe).take N

/-- The spec's `filterAndRank(table, dimension, selectedValues, topN)`: the
`app.py` composition of the dimension filter with the top-N truncation. -/
def filterAndRank (T : List VisRow) (dim : VisRow → String)
    (sel : List String) (N : ℕ) : List VisRow :=
  nlargestByTotal N (filterByDim dim sel T)

/-- C6: an empty selection is a pass-through on the dimension: the result is
the table ranked descending by the metric and truncated to N, unfiltered. -/
theorem filterAndRank_empty_selection_passthrough (T : List VisRow)
    (dim : VisRow → String) (N : ℕ) :
    filterAndRank T dim [] N = nlargestByTotal N T := rfl

lemma visLe_trans : ∀ a b c : VisRow,
    visLe a b = true → visLe b c = true → visLe a c = true := by
  intro a b c hab hbc
  simp only [visLe, decide_eq_true_eq] at *
  omega

lemma visLe_total : ∀ a b : VisRow, (visLe a b || visLe b a) = true := by
  intro a b
  simp only [visLe, Bool.or_eq_true, decide_eq_true_eq]
  omega

lemma mem_nlargest {N : ℕ} {T : List VisRow} {a : VisRow}
    (h : a ∈ nlargestByTotal N T) : a ∈ T := by
  unfold nlargestByTotal at h
  exact List.mem_mergeSort.mp ((List.take_sublist _ _).subset h)

lemma filterByDim_nlargest (dim : VisRow → String) (sel : List String)
    (T : List VisRow) (N : ℕ) :
    filterByDim dim sel (nlargestByTotal N (filterByDim dim sel T)) =
      nlargestByTotal N (filterByDim dim sel T) := by
  cases hs : sel.isEmpty with
  | true =>
    unfold filterByDim
    rw [hs]
    simp
  | false =>
    unfold filterByDim
    rw [hs]
    simp only [Bool.false_eq_true, if_false]
    apply List.filter_eq_self.mpr
    intro a ha
    have hmem := mem_nlargest ha
    exact (List.mem_filter.mp hmem).2

lemma nlargest_idem (N : ℕ) (X : List VisRow) :
    nlargestByTotal N (nlargestByTotal N X) = nlargestByTotal N X := by
  unfold nlargestByTotal
  have hsorted : List.Pairwise (fun a b => visLe a b = true)
      ((X.mergeSort visLe).take N) :=
    List.Pairwise.sublist (List.take_sublist _ _)
      (List.sorted_mergeSort visLe_trans visLe_total X)
  rw [List.mergeSort_of_sorted hsorted, List.take_take, Nat.min_self]

/-- C8: the filter-and-rank layer is idempotent: applying it a second time
with the same dimension, selection and limit returns its own output
unchanged, rows and order included. -/
theorem filterAndRank_idempotent (T : List VisRow) (dim : VisRow → String)
    (sel : List String) (N : ℕ) :
    filterAndRank (filterAndRank T dim sel N) dim sel N =
      filterAndRank T dim sel N := by
  unfold filterAndRank
  rw [filterByDim_nlargest]
  exact nlargest_idem N (filterByDim dim sel T)

/-- `app.py` lines 360-371: composition of a user multi-select with the
top-N derived list for the same dimension (written once here; the source
repeats the identical pattern for programs and for countries).  The Python
condition `if selected and selected != options:` is modelled by the
conjunction below; the intersection comprehension
`[p for p in selected if p in top]` is `selected.filter (top.contains ·)`,
inlined into both branches of the inner conditional. -/
def chooseSelection (selected options topN : List String) : List String :=
  if ¬ selected.isEmpty ∧ selected ≠ options then
    if ¬ (selected.filter (fun v => topN.contains v)).isEmpty then
      selected.filter (fun v => topN.contains v)
    else selected
  else topN

/-- C7: for a non-trivial user selection (non-empty and not the full option
list), the chosen values are the intersection of the selection with the
top-N list when that intersection is non-empty, and exactly the user's
selection otherwise; the chosen list is never empty. -/
theorem chosen_selection_composition (selected options topN : List String)
    (hne : selected ≠ []) (hopts : selected ≠ options) :
    ((selected.filter (fun v => topN.contains v)) ≠ [] →
      chooseSelection selected options topN =
        selected.filter (fun v => topN.contains v)) ∧
    ((selected.filter (fun v => topN.contains v)) = [] →
      chooseSelection selected options topN = selected) ∧
    chooseSelection selected options topN ≠ [] := by
  have hcond : ¬ selected.isEmpty ∧ selected ≠ options :=
    ⟨fun h => hne (List.isEmpty_iff.mp h), hopts⟩
  unfold chooseSelection
  rw [if_pos hcond]
  refine ⟨?_, ?_, ?_⟩
  · intro hi
    rw [if_pos (fun h => hi (List.isEmpty_iff.mp h))]
  · intro hi
    rw [if_neg (not_not_intro (List.isEmpty_iff.mpr hi))]
  · by_cases hi : (selected.filter (fun v => topN.contains v)) = []
    · rw [if_neg (not_not_intro (List.isEmpty_iff.mpr hi))]
      exact hne
    · rw [if_pos (fun h => hi (List.isEmpty_iff.mp h))]
      exact hi

/-- Witness for C7 at a concrete non-trivial selection whose intersection
with the top-N list is non-empty. -/
theorem chosen_selection_composition_witness :
    ((["a", "b"].filter (fun v => ["b", "z"].contains v)) ≠ [] →
      chooseSelection ["a", "b"] ["a", "b", "c"] ["b", "z"] =
        ["a", "b"].filter (fun v => ["b", "z"].contains v)) ∧
    ((["a", "b"].filter (fun v => ["b", "z"].contains v)) = [] →
      chooseSelection ["a", "b"] ["a", "b", "c"] ["b", "z"] = ["a", "b"]) ∧
    chooseSelection ["a", "b"] ["a", "b", "c"] ["b", "z"] ≠ [] :=
  chosen_selection_composition ["a", "b"] ["a", "b", "c"] ["b", "z"]
    (by decide) (by decide)
